import Mathlib

/-!
Verification of the HyperTough warranty intake widget (src/index.tsx)
against its natural-language specification.

The source is a single React component file.  Its logical core is:
  * `within365Days` — the purchase-date eligibility check;
  * `classNames` — a class-string helper;
  * `PRODUCTS` — the static product catalog;
  * `handleChange` / `handleSubmit` and the `step`/`submitted`/`form`
    state hooks of the `HyperToughWarranty` component — a small
    presentation state machine around one outbound ticket request.

Shallow-embedding conventions used throughout:
  * JavaScript `Date` parsing (`new Date(dateString)` followed by the
    `isNaN(d.getTime())` check) is an external browser facility, so it is
    modelled as an explicit parameter `parse : String → Option ℚ`,
    where `some t` is the parsed epoch-millisecond timestamp and `none`
    is the NaN (unparseable) case.
  * The ambient clock read `new Date()` inside `within365Days` is
    modelled by explicit state passing: the millisecond reading becomes
    the explicit argument `now : ℚ`.
  * Millisecond timestamps and the fractional day quotient are modelled
    as rationals.
  * The `fetch` call is an external effect; its observable footprint is
    recorded as the list of issued requests plus the transport result,
    and the `console.error` log line is recorded explicitly.
-/

namespace HyperTough

/-- Product record: `interface Product { sku: string; name: string }`. -/
structure Product where
  sku : String
  name : String
deriving DecidableEq, Repr

/-- The static catalog `PRODUCTS` from src/index.tsx lines 12–16. -/
def PRODUCTS : List Product :=
  [ { sku := "HT-JACK", name := "2 TON FLOOR JACK" },
    { sku := "HT-STAND", name := "2 TON JACK STANDS" },
    { sku := "HT-CREEPER", name := "40\" MECHANIC\'S CREEPER" } ]

/-- Milliseconds per day, the divisor `1000 * 60 * 60 * 24` from line 33. -/
def msPerDay : ℚ := 1000 * 60 * 60 * 24

/-- `within365Days` from src/index.tsx lines 28–35.

    ```
    const d = new Date(dateString);
    if (isNaN(d.getTime())) return false;
    const now = new Date();
    const diff = now.getTime() - d.getTime();
    const days = diff / (1000 * 60 * 60 * 24);
    return days >= 0 && days <= 365;
    ```

    `parse` models browser date parsing (`none` = NaN), and `now` models
    the ambient clock value read internally on line 31. -/
def within365Days (parse : String → Option ℚ) (now : ℚ) (dateString : String) : Bool :=
  match parse dateString with
  | none => false
  | some t =>
    let diff : ℚ := now - t
    let days : ℚ := diff / msPerDay
    decide (0 ≤ days ∧ days ≤ 365)

/-- Argument type of `classNames`: `(string | false | undefined | null)`. -/
inductive CNArg where
  | str (s : String)
  | falseArg
  | undef
  | null
deriving DecidableEq, Repr

/-- JavaScript truthiness (`Boolean(x)`) on a `CNArg`: a string is truthy
    iff non-empty; `false`, `undefined` and `null` are falsy. -/
def CNArg.truthy : CNArg → Bool
  | .str s => !(s == "")
  | _ => false

/-- The string a truthy argument contributes to the joined result
    (only ever applied to `.str` values after the truthiness filter). -/
def CNArg.asString : CNArg → String
  | .str s => s
  | _ => ""

/-- `classNames` from src/index.tsx lines 40–42:
    `args.filter(Boolean).join(' ')`. -/
def classNames (args : List CNArg) : String :=
  String.intercalate " " ((args.filter CNArg.truthy).map CNArg.asString)

/-- The mutable `form` record of the component (lines 52–60). -/
structure ClaimForm where
  name : String
  email : String
  phone : String
  sku : String
  purchaseDate : String
  description : String
  injury : Bool
deriving DecidableEq, Repr

/-- The empty form initialised by `useState` (lines 52–60). -/
def emptyForm : ClaimForm :=
  { name := "", email := "", phone := "", sku := "", purchaseDate := "",
    description := "", injury := false }

/-- The keys of the form record (`keyof typeof form`). -/
inductive Field where
  | name
  | email
  | phone
  | sku
  | purchaseDate
  | description
  | injury
deriving DecidableEq, Repr

/-- `handleChange` from src/index.tsx lines 63–71.  A change event from a
    checkbox target carries `checked`, other targets carry `value`; the
    injury field is bound to a checkbox in the markup (lines 261–267), so
    for `field === 'injury'` the `'checked' in e.target` guard holds and
    the checked boolean is written, otherwise the string value is written
    into the named field of the previous record. -/
def handleChange (field : Field) (checked : Bool) (value : String)
    (prev : ClaimForm) : ClaimForm :=
  match field with
  | .injury => { prev with injury := checked }
  | .name => { prev with name := value }
  | .email => { prev with email := value }
  | .phone => { prev with phone := value }
  | .sku => { prev with sku := value }
  | .purchaseDate => { prev with purchaseDate := value }
  | .description => { prev with description := value }

/-- Uniform reader for a form field, as a string-or-boolean value
    (mirroring the union of field types in the record). -/
def readField (f : ClaimForm) : Field → String ⊕ Bool
  | .name => .inl f.name
  | .email => .inl f.email
  | .phone => .inl f.phone
  | .sku => .inl f.sku
  | .purchaseDate => .inl f.purchaseDate
  | .description => .inl f.description
  | .injury => .inr f.injury

/-- The ticket payload built in `handleSubmit` (lines 91–96): the
    `request.subject` string and the `request.comment.body` string. -/
structure TicketPayload where
  subject : String
  body : String
deriving DecidableEq, Repr

/-- The ticket body built on lines 81–89: the seven labelled fields
    joined by newline, injury rendered through the conditional
    `form.injury ? 'Yes' : 'No'`. -/
def buildBody (f : ClaimForm) : String :=
  String.intercalate "\n"
    [ "Name: " ++ f.name,
      "Email: " ++ f.email,
      "Phone: " ++ f.phone,
      "SKU: " ++ f.sku,
      "Purchase Date: " ++ f.purchaseDate,
      "Description: " ++ f.description,
      "Personal Injury: " ++ (if f.injury then "Yes" else "No") ]

/-- The payload of lines 91–96, with the subject template literal
    `Hyper Tough Warranty Claim for $\x7bform.sku\x7d`. -/
def buildPayload (f : ClaimForm) : TicketPayload :=
  { subject := "Hyper Tough Warranty Claim for " ++ f.sku,
    body := buildBody f }

/-- The `step` union type of the component (line 49). -/
inductive Step where
  | home
  | troubleshoot
  | warranty
  | submittedStep
deriving DecidableEq, Repr

/-- The component state: the three `useState` hooks
    `step`, `submitted`, `form` (lines 50–60). -/
structure AppState where
  step : Step
  submitted : Bool
  form : ClaimForm
deriving DecidableEq, Repr

/-- The initial component state. -/
def initialState : AppState :=
  { step := .home, submitted := false, form := emptyForm }

/-- Transport result of the awaited `fetch` on lines 99–106: either the
    promise resolves or it rejects (timeout / network error). -/
inductive NetResult where
  | ok
  | error
deriving DecidableEq, Repr

/-- Caller-visible outcome of `handleSubmit`: the early-return rejection
    path (alert, line 77) versus the submitted confirmation path
    (lines 110–111). -/
inductive SubmitOutcome where
  | notEligible
  | submittedOutcome
deriving DecidableEq, Repr

/-- Observable result of one `handleSubmit` call: the new component
    state, the outcome, the outbound requests issued, and the
    `console.error` log lines emitted. -/
structure SubmitResult where
  state : AppState
  outcome : SubmitOutcome
  requests : List TicketPayload
  logs : List String
deriving DecidableEq, Repr

/-- `handleSubmit` from src/index.tsx lines 75–113.

    If `within365Days(form.purchaseDate)` is false the function alerts
    and returns with no further effect.  Otherwise it builds the payload,
    issues exactly one `fetch`; a transport error is caught and logged
    (`console.error`, line 108); the `finally` block (lines 109–112)
    unconditionally sets `submitted` to true and `step` to `'submitted'`. -/
def handleSubmit (parse : String → Option ℚ) (now : ℚ) (net : NetResult)
    (st : AppState) : SubmitResult :=
  if within365Days parse now st.form.purchaseDate then
    { state := { st with submitted := true, step := .submittedStep },
      outcome := .submittedOutcome,
      requests := [buildPayload st.form],
      logs := match net with
        | .ok => []
        | .error => ["Error creating Zendesk ticket:"] }
  else
    { state := st, outcome := .notEligible, requests := [], logs := [] }

/-- The caller-driven events of the presentation state machine: the
    navigation buttons (`setStep` calls in the markup), a form-field
    change, and a form submission. -/
inductive Event where
  | navHome
  | navTroubleshoot
  | navWarranty
  | change (field : Field) (checked : Bool) (value : String)
  | submit (net : NetResult)
deriving DecidableEq, Repr

/-- One transition of the presentation state machine.  The navigation
    events are the `setStep('home')` / `setStep('troubleshoot')` /
    `setStep('warranty')` button handlers in the markup; `change` routes
    through `handleChange`; `submit` routes through `handleSubmit`.
    No handler in the component ever writes `submitted := false` or
    replaces the form with a fresh record. -/
def stepEvent (parse : String → Option ℚ) (now : ℚ) (st : AppState) :
    Event → AppState
  | .navHome => { st with step := .home }
  | .navTroubleshoot => { st with step := .troubleshoot }
  | .navWarranty => { st with step := .warranty }
  | .change f c v => { st with form := handleChange f c v st.form }
  | .submit net => (handleSubmit parse now net st).state

/-- Run a sequence of events from a state. -/
def runEvents (parse : String → Option ℚ) (now : ℚ) (st : AppState)
    (evs : List Event) : AppState :=
  evs.foldl (stepEvent parse now) st

/-- The warranty claim form markup is rendered exactly when
    `step === 'warranty' && !submitted` (src/index.tsx line 186). -/
def rendersWarrantyForm (st : AppState) : Prop :=
  st.step = Step.warranty ∧ st.submitted = false

instance (st : AppState) : Decidable (rendersWarrantyForm st) := by
  unfold rendersWarrantyForm; infer_instance

end HyperTough

namespace HyperTough

/-! ### Helper lemmas -/

/-- Every event of the presentation state machine preserves a set
    `submitted` flag: no handler in the component writes `false` to it. -/
theorem stepEvent_preserves_submitted (parse : String → Option ℚ) (now : ℚ)
    (e : Event) (st : AppState) (h : st.submitted = true) :
    (stepEvent parse now st e).submitted = true := by
  cases e with
  | navHome => simpa [stepEvent] using h
  | navTroubleshoot => simpa [stepEvent] using h
  | navWarranty => simpa [stepEvent] using h
  | change f c v => simpa [stepEvent] using h
  | submit net =>
    simp only [stepEvent, handleSubmit]
    split
    · rfl
    · exact h

/-- Running any event sequence preserves a set `submitted` flag. -/
theorem runEvents_preserves_submitted (parse : String → Option ℚ) (now : ℚ)
    (st : AppState) (evs : List Event) (h : st.submitted = true) :
    (runEvents parse now st evs).submitted = true := by
  induction evs generalizing st with
  | nil => simpa [runEvents] using h
  | cons e evs ih =>
    have h1 := stepEvent_preserves_submitted parse now e st h
    simpa [runEvents, List.foldl_cons] using ih (stepEvent parse now st e) h1

end HyperTough

namespace HyperTough

/-! ### Claim theorems -/

/-- C1: `within365Days d` returns true iff `d` parses as a calendar date
    and the elapsed time from the parsed date to now, in (possibly
    fractional) days, satisfies `0 ≤ elapsed ≤ 365`; an unparseable
    string returns false (and, being a total function, it never raises). -/
theorem within365Days_true_iff (parse : String → Option ℚ) (now : ℚ)
    (d : String) :
    within365Days parse now d = true ↔
      ∃ t, parse d = some t ∧
        0 ≤ (now - t) / msPerDay ∧ (now - t) / msPerDay ≤ 365 := by
  unfold within365Days
  cases h : parse d with
  | none => simp [h]
  | some t => simp [h]

/-- C2: for a form whose purchase date is eligible, `handleSubmit`
    reports the submitted outcome, sets the `submitted` flag and moves
    to the submitted step, for every transport result of the network
    call; a transport error is only logged, never surfaced. -/
theorem handleSubmit_eligible_always_submitted (parse : String → Option ℚ)
    (now : ℚ) (net : NetResult) (st : AppState)
    (h : within365Days parse now st.form.purchaseDate = true) :
    (handleSubmit parse now net st).outcome = SubmitOutcome.submittedOutcome ∧
    (handleSubmit parse now net st).state.submitted = true ∧
    (handleSubmit parse now net st).state.step = Step.submittedStep ∧
    (net = NetResult.error →
      (handleSubmit parse now net st).logs = ["Error creating Zendesk ticket:"]) := by
  refine ⟨by simp [handleSubmit, h], by simp [handleSubmit, h],
    by simp [handleSubmit, h], ?_⟩
  intro hnet
  subst hnet
  simp [handleSubmit, h]

/-- Closed witness for C2: an eligible date with an injected transport
    error still yields the submitted outcome. -/
theorem handleSubmit_eligible_always_submitted_concrete :
    (handleSubmit (fun _ => some 0) 0 NetResult.error initialState).outcome
        = SubmitOutcome.submittedOutcome ∧
    (handleSubmit (fun _ => some 0) 0 NetResult.error initialState).state.submitted = true ∧
    (handleSubmit (fun _ => some 0) 0 NetResult.error initialState).state.step
        = Step.submittedStep ∧
    (NetResult.error = NetResult.error →
      (handleSubmit (fun _ => some 0) 0 NetResult.error initialState).logs
        = ["Error creating Zendesk ticket:"]) :=
  handleSubmit_eligible_always_submitted (fun _ => some 0) 0 NetResult.error
    initialState (by norm_num [within365Days, msPerDay, initialState, emptyForm])

/-- C3 counterexample: for a form with `sku = "HT-CREEPER"` the built
    subject is `"Hyper Tough Warranty Claim for HT-CREEPER"`, which is
    not the claimed `"Warranty Claim for HT-CREEPER"`. -/
theorem buildPayload_subject_not_as_claimed :
    (buildPayload { emptyForm with sku := "HT-CREEPER" }).subject
        = "Hyper Tough Warranty Claim for HT-CREEPER" ∧
    (buildPayload { emptyForm with sku := "HT-CREEPER" }).subject
        ≠ "Warranty Claim for HT-CREEPER" := by
  constructor
  · rfl
  · decide

/-- C3 (amended): for every eligible submission, the single issued
    request carries the subject
    `"Hyper Tough Warranty Claim for " ++ sku`. -/
theorem handleSubmit_subject (parse : String → Option ℚ) (now : ℚ)
    (net : NetResult) (st : AppState)
    (h : within365Days parse now st.form.purchaseDate = true) :
    (handleSubmit parse now net st).requests.map TicketPayload.subject
      = ["Hyper Tough Warranty Claim for " ++ st.form.sku] := by
  simp [handleSubmit, h, buildPayload]

/-- Closed witness for the amended C3: a concrete eligible submission
    with `sku = "HT-CREEPER"`. -/
theorem handleSubmit_subject_concrete :
    (handleSubmit (fun _ => some 0) 0 NetResult.ok
        { initialState with form := { emptyForm with sku := "HT-CREEPER" } }).requests.map
        TicketPayload.subject
      = ["Hyper Tough Warranty Claim for " ++
          ({ initialState with
              form := { emptyForm with sku := "HT-CREEPER" } } : AppState).form.sku] :=
  handleSubmit_subject (fun _ => some 0) 0 NetResult.ok
    { initialState with form := { emptyForm with sku := "HT-CREEPER" } }
    (by norm_num [within365Days, msPerDay, initialState, emptyForm])

/-- C4: for a form whose purchase date is ineligible, `handleSubmit`
    issues no outbound request, leaves the component state unchanged,
    and reports the rejection outcome. -/
theorem handleSubmit_ineligible_no_network (parse : String → Option ℚ)
    (now : ℚ) (net : NetResult) (st : AppState)
    (h : within365Days parse now st.form.purchaseDate = false) :
    (handleSubmit parse now net st).outcome = SubmitOutcome.notEligible ∧
    (handleSubmit parse now net st).requests = [] ∧
    (handleSubmit parse now net st).state = st ∧
    (handleSubmit parse now net st).logs = [] := by
  simp [handleSubmit, h]

/-- Closed witness for C4: an unparseable purchase date is rejected with
    no network activity. -/
theorem handleSubmit_ineligible_no_network_concrete :
    (handleSubmit (fun _ => none) 0 NetResult.ok initialState).outcome
        = SubmitOutcome.notEligible ∧
    (handleSubmit (fun _ => none) 0 NetResult.ok initialState).requests = [] ∧
    (handleSubmit (fun _ => none) 0 NetResult.ok initialState).state = initialState ∧
    (handleSubmit (fun _ => none) 0 NetResult.ok initialState).logs = [] :=
  handleSubmit_ineligible_no_network (fun _ => none) 0 NetResult.ok initialState rfl

/-- C5: the ticket body is exactly the seven labelled fields joined by
    newline in the fixed order Name, Email, Phone, SKU, Purchase Date,
    Description, Personal Injury, with the injury flag rendered as
    "Yes" when true and "No" when false. -/
theorem buildBody_seven_lines (f : ClaimForm) :
    buildBody f =
      "Name: " ++ f.name ++ "\n" ++
      "Email: " ++ f.email ++ "\n" ++
      "Phone: " ++ f.phone ++ "\n" ++
      "SKU: " ++ f.sku ++ "\n" ++
      "Purchase Date: " ++ f.purchaseDate ++ "\n" ++
      "Description: " ++ f.description ++ "\n" ++
      "Personal Injury: " ++ (if f.injury then "Yes" else "No") := by
  simp [buildBody, String.intercalate, String.intercalate.go, ← String.append_assoc]

/-- C6 counterexample: with the same date string and the same parse
    result, two different ambient clock readings give different answers,
    so `within365Days` is not independent of the internally read clock
    (the source reads `new Date()` inside the function; neither the
    clock nor the window length is a declared parameter). -/
theorem within365Days_clock_dependent :
    within365Days (fun _ => some 0) 0 "2024-01-01" = true ∧
    within365Days (fun _ => some 0) (366 * msPerDay) "2024-01-01" = false := by
  constructor
  · norm_num [within365Days, msPerDay]
  · norm_num [within365Days, msPerDay]

/-- C6 (amended): modelling the internal clock read and date parsing as
    explicit inputs, `within365Days` is deterministic: equal parse
    results and equal clock readings yield equal booleans, with no
    dependence on anything else. -/
theorem within365Days_deterministic (p q : String → Option ℚ) (now : ℚ)
    (d e : String) (h : p d = q e) :
    within365Days p now d = within365Days q now e := by
  unfold within365Days
  rw [h]

/-- Closed witness for the amended C6: two distinct strings with equal
    parse results get equal verdicts. -/
theorem within365Days_deterministic_concrete :
    within365Days (fun _ => some 0) 0 "2024-01-01"
      = within365Days (fun _ => some 0) 0 "2024-01-01T00:00:00Z" :=
  within365Days_deterministic (fun _ => some 0) (fun _ => some 0) 0
    "2024-01-01" "2024-01-01T00:00:00Z" rfl

/-- C7: once the `submitted` flag is set, no sequence of events of the
    presentation state machine ever renders the warranty claim form
    again (the markup renders it only under
    `step = warranty ∧ submitted = false`, and no handler clears the
    flag), in particular never with the old form instance pre-filled. -/
theorem submitted_is_terminal_for_warranty (parse : String → Option ℚ)
    (now : ℚ) (st : AppState) (evs : List Event)
    (h : st.submitted = true) :
    ¬ rendersWarrantyForm (runEvents parse now st evs) := by
  intro hr
  have hs := runEvents_preserves_submitted parse now st evs h
  rw [rendersWarrantyForm] at hr
  rw [hs] at hr
  exact Bool.noConfusion hr.2

/-- Closed witness for C7: after a submission is recorded, navigating
    back to the warranty screen does not render the form. -/
theorem submitted_is_terminal_for_warranty_concrete :
    ¬ rendersWarrantyForm
        (runEvents (fun _ => some 0) 0
          { initialState with submitted := true } [Event.navWarranty]) :=
  submitted_is_terminal_for_warranty (fun _ => some 0) 0
    { initialState with submitted := true } [Event.navWarranty] rfl

/-- C8: the SKUs of the configured catalog are pairwise distinct. -/
theorem products_sku_pairwise_distinct :
    PRODUCTS.Pairwise (fun p q => p.sku ≠ q.sku) := by
  decide

/-- C9: the change handler for a field updates exactly that field — any
    other field reads the same before and after — and the updated value
    is the checkbox boolean for the injury field and the input string
    otherwise. -/
theorem handleChange_updates_only_field (fld g : Field) (c : Bool)
    (v : String) (prev : ClaimForm) :
    (g ≠ fld →
      readField (handleChange fld c v prev) g = readField prev g) ∧
    readField (handleChange fld c v prev) fld =
      (if fld = Field.injury then Sum.inr c else Sum.inl v) := by
  constructor
  · intro hg
    cases fld <;> cases g <;> simp_all [handleChange, readField]
  · cases fld <;> simp [handleChange, readField]

/-- Closed witness for C9: updating the name leaves the email unchanged
    and stores the new string in the name field. -/
theorem handleChange_updates_only_field_concrete :
    readField (handleChange Field.name true "Ada" emptyForm) Field.email
      = readField emptyForm Field.email :=
  (handleChange_updates_only_field Field.name Field.email true "Ada"
    emptyForm).1 (by decide)

/-- The truthy arguments of `classNames`, in order: a non-empty string
    argument survives as itself, everything else is dropped. -/
def keepTruthy : CNArg → Option String
  | .str s => if s = "" then none else some s
  | _ => none

/-- C10: `classNames` returns exactly the truthy (non-empty string)
    arguments, in their original order, joined by single spaces, and
    returns the empty string when every argument is falsy. -/
theorem classNames_joins_truthy (args : List CNArg) :
    classNames args = String.intercalate " " (args.filterMap keepTruthy) ∧
    ((∀ a ∈ args, a.truthy = false) → classNames args = "") := by
  constructor
  · unfold classNames
    congr 1
    induction args with
    | nil => rfl
    | cons a as ih =>
      cases a with
      | str s =>
        by_cases hs : s = "" <;>
          simp [keepTruthy, CNArg.truthy, CNArg.asString, hs, ih]
      | falseArg => simp [keepTruthy, CNArg.truthy, ih]
      | undef => simp [keepTruthy, CNArg.truthy, ih]
      | null => simp [keepTruthy, CNArg.truthy, ih]
  · intro h
    unfold classNames
    have : args.filter CNArg.truthy = [] := by
      rw [List.filter_eq_nil_iff]
      intro a ha
      simp [h a ha]
    rw [this]
    rfl

/-- Closed witness for C10: all-falsy arguments yield the empty string. -/
theorem classNames_joins_truthy_concrete :
    classNames [CNArg.falseArg, CNArg.undef, CNArg.null, CNArg.str ""] = "" :=
  (classNames_joins_truthy
    [CNArg.falseArg, CNArg.undef, CNArg.null, CNArg.str ""]).2 (by decide)

end HyperTough
